import Mathlib

/-!
Verification of the supervisor_framework conversational workflow engine.

Shallow embedding of `src/workflow_system/core/engine.py`
(`EnhancedParameterWorkflow`) together with the state model of
`src/workflow_system/models/state.py` and the configuration of
`src/workflow_system/config/settings.py`.

Modelling conventions:
* Python dicts with string keys become association lists (`List (String × _)`);
  `aset` mirrors `d[k] = v` (replace in place, else append — Python dicts keep
  insertion order and have unique keys), `alookup` mirrors `d.get(k)`.
* JSON-ish parameter values become the inductive `Value`; `Value.toStr`
  mirrors Python `str(...)` on those values (`str(None) = "None"`, ...).
* The injected LLM capabilities (`supervisor_llm.invoke`,
  `structured_llm.invoke`, `parameter_extractor_llm.invoke`), the stdlib JSON
  decoder `json.loads` and the per-phase pydantic validator/business function
  are external, fallible collaborators; they are parameters (`Env`,
  `ParamModel.validate`, `PhaseDef.workflow_function`).  An `Except.error e`
  models a raised exception with text `e`.  Prompt strings that are only sent
  to an LLM and never inspected by the engine are not rebuilt; the oracles
  receive the data (message, phase name, attempt index) the prompt is built
  from, which loses no generality because the oracles are arbitrary.
* LangGraph merge semantics: a node's returned dict is merged into the channel
  state (the `messages` channel appends, every other channel is overwritten);
  a node receives a *fresh* dict read from the channels, so top-level
  assignments like `state["status"] = ...` that are not part of the returned
  dict (e.g. in the supervisor's `Command(goto=...)` path, lines 388–391, and
  the transient `EXECUTING` write on line 556) do not survive the node, while
  mutations of the *inner* dict objects (e.g. `state["params"][phase]`, which
  is the very object held by the `params` channel) do survive.  The embedded
  node functions therefore return the full merged successor state.
* `WorkflowStatus` string values become the inductive `WStatus`
  (`pending ↦ "pending"`, `collecting ↦ "collecting_params"`,
  `executing ↦ "executing"`, `completed ↦ "completed"`, `failed ↦ "failed"`).
-/

/-- A JSON-ish parameter value as stored in the per-phase parameter maps. -/
inductive Value
  | vnull
  | vstr (s : String)
  | vnum (n : Int)
  | vbool (b : Bool)
deriving DecidableEq, Repr

/-- Python `str(...)` on a parameter value (`str(None) = "None"`, booleans
capitalised, integers in decimal). -/
def Value.toStr : Value → String
  | .vnull => "None"
  | .vstr s => s
  | .vnum n => toString n
  | .vbool true => "True"
  | .vbool false => "False"

/-- A role-tagged conversation message (HumanMessage / AIMessage /
SystemMessage). -/
inductive Msg
  | human (content : String)
  | ai (content : String)
  | system (content : String)
deriving DecidableEq, Repr

/-- The textual content of a message. -/
def Msg.content : Msg → String
  | .human c => c
  | .ai c => c
  | .system c => c

/-- Model of `WorkflowStatus` from `config/settings.py`. -/
inductive WStatus
  | pending
  | collecting
  | executing
  | completed
  | failed
deriving DecidableEq, Repr

/-- Supervisor decision (`SupervisorOut` / `SupervisorOutPydantic` from
`models/state.py`).  Confidence is an exact rational since the engine only
ever assigns the literals 0.0, 0.1, 0.5 to it. -/
structure SupervisorOut where
  next_phase : String
  intent : String
  confidence : Rat
deriving DecidableEq, Repr

/-- The dict returned by a phase business function; the engine reads
`result.get('status', 'completed')` and `result.get('completion_message', …)`.
Other payload entries are never inspected by the engine and are omitted. -/
structure BizResult where
  status? : Option String
  completion_message? : Option String
deriving DecidableEq, Repr

/-- One entry of `param_model.model_fields`. -/
structure FieldInfo where
  name : String
  description? : Option String
  examples : List String
  excluded : Bool
deriving DecidableEq, Repr

/-- Association-list lookup, mirroring Python `d.get(k)`. -/
def alookup {α : Type} : List (String × α) → String → Option α
  | [], _ => none
  | (k', v) :: rest, k => if k' = k then some v else alookup rest k

/-- Association-list write, mirroring Python `d[k] = v`: replaces the value in
place if the key is present (dicts keep insertion order), otherwise appends. -/
def aset {α : Type} : List (String × α) → String → α → List (String × α)
  | [], k, v => [(k, v)]
  | (k', v') :: rest, k, v =>
      if k' = k then (k, v) :: rest else (k', v') :: aset rest k v

/-- Python `d.update(other)`: successive writes of every entry of `other`. -/
def aupdate {α : Type} (m : List (String × α)) (other : List (String × α)) :
    List (String × α) :=
  other.foldl (fun acc kv => aset acc kv.1 kv.2) m

/-- A pydantic parameter model as consumed by the engine: its declared fields,
the optional `get_user_input_fields` / `get_computed_fields` classmethods, and
`model_validate ∘ model_dump` as an opaque fallible validator
(`Except.error e` models a raised exception with text `str(e)`). -/
structure ParamModel where
  fields : List FieldInfo
  userInputFields? : Option (List String)
  computedFields? : Option (List String)
  validate : List (String × Value) → Except String (List (String × Value))

/-- Model of `PhaseDefinition` from `workflows/base.py` (the fields the engine reads). -/
structure PhaseDef where
  name : String
  required_params : ParamModel
  workflow_function : List (String × Value) → Except String BizResult
  description : String

/-- Model of `WorkflowState` from `models/state.py`. -/
structure WState where
  messages : List Msg
  params : List (String × List (String × Value))
  results : List (String × BizResult)
  supervisor_out : Option SupervisorOut
  current_phase : Option String
  awaiting_input : Bool
  status : WStatus
  error_count : Nat
  iteration_count : Nat
  error_message : Option String
deriving DecidableEq, Repr

/-- Model of `WorkflowConfig` from `config/settings.py` (the fields the engine reads;
the LLM model name and temperatures only parameterise the injected
capabilities). -/
structure WorkflowConfig where
  max_iterations : Nat := 5
  parameter_extraction_retries : Nat := 3
  enable_auto_continuation : Bool := true
  debug_mode : Bool := false

/-- The injected fallible capabilities:
* `classify`: `supervisor_llm.invoke` on the formatted prompt built from the
  message history (structured `SupervisorOutPydantic` output);
* `extractOracle attempt message phase`: one `structured_llm.invoke` attempt of
  `_extract_parameters_with_structured_output`, already converted to a dict by
  `model_dump` (an arbitrary field map — a superset of pydantic's behaviour);
* `freeTextOracle message phase`: `parameter_extractor_llm.invoke(...).content`
  inside `_extract_parameters_with_fallback`;
* `decodeJson`: `json.loads` restricted to outputs that are JSON objects
  (`none` covers both a parse error and a non-dict result, either of which
  raises in the Python code). -/
structure Env where
  classify : List Msg → Except String SupervisorOut
  extractOracle : Nat → String → String → Except String (List (String × Value))
  freeTextOracle : String → String → Except String String
  decodeJson : String → Option (List (String × Value))

/-- Python `needle in haystack` on lists of characters. -/
def listContainsSub : List Char → List Char → Bool
  | [], needle => needle.isEmpty
  | c :: rest, needle => needle.isPrefixOf (c :: rest) || listContainsSub rest needle

/-- Python `needle in haystack` for strings. -/
def strIn (haystack needle : String) : Bool :=
  listContainsSub haystack.toList needle.toList

/-- Python `s.lower()` (structural, so that concrete runs reduce; the core
library version is defined by well-founded recursion).  `Char.toLower` covers
the ASCII range occurring here, matching Python on these inputs. -/
def pyLower (s : String) : String :=
  String.mk (s.toList.map Char.toLower)

/-- Python `s.strip()` (structural): drop whitespace from both ends. -/
def pyTrim (s : String) : String :=
  String.mk
    (((s.toList.dropWhile Char.isWhitespace).reverse.dropWhile
      Char.isWhitespace).reverse)

/-- Python `s.startswith(pre)` (structural). -/
def pyStartsWith (s pre : String) : Bool :=
  pre.toList.isPrefixOf s.toList

/-- Python `s.endswith(suf)` (structural). -/
def pyEndsWith (s suf : String) : Bool :=
  suf.toList.isSuffixOf s.toList

/-- Python `s[n:]` for a nonnegative index (structural). -/
def pyDrop (s : String) (n : Nat) : String :=
  String.mk (s.toList.drop n)

/-- Python `s[:-n]` (structural). -/
def pyDropRight (s : String) (n : Nat) : String :=
  String.mk (s.toList.take (s.toList.length - n))

/-- Python `s.replace('_', ' ')` as used on phase and field names. -/
def replaceUnderscores (s : String) : String :=
  String.mk (s.toList.map (fun c => if c = '_' then ' ' else c))

/-- Helper for Python `str.title()`: a letter is uppercased when the previous
character is not a letter, lowercased otherwise. -/
def pythonTitleAux : List Char → Bool → List Char
  | [], _ => []
  | c :: rest, prevAlpha =>
      (if c.isAlpha then (if prevAlpha then c.toLower else c.toUpper) else c) ::
        pythonTitleAux rest c.isAlpha

/-- Python `s.title()` (ASCII identifiers only appear here). -/
def pythonTitle (s : String) : String :=
  String.mk (pythonTitleAux s.toList false)

/-- The opening-brace character (written numerically). -/
def lbrace : Char := Char.ofNat 123

/-- The closing-brace character (written numerically). -/
def rbrace : Char := Char.ofNat 125

/-- Index of the last occurrence of a character, mirroring Python `s.rfind`. -/
def lastIdxOf (cs : List Char) (c : Char) : Option Nat :=
  (cs.reverse.findIdx? (· = c)).map (fun k => cs.length - 1 - k)

/-- Lines 109–112 of `engine.py`: strip a leading markdown fence
`` ```json `` (7 characters) and a trailing `` ``` `` (3 characters). -/
def stripFences (content : String) : String :=
  let c1 := if pyStartsWith content "```json" then pyDrop content 7 else content
  if pyEndsWith c1 "```" then pyDropRight c1 3 else c1

/-- Lines 114–118 of `engine.py`: `content[content.find(lbrace) :
content.rfind(rbrace) + 1]` when both braces are found, else the content
unchanged (`json_start != -1 and json_end != 0`). -/
def braceSlice (content : String) : String :=
  let cs := content.toList
  match cs.findIdx? (· = lbrace), lastIdxOf cs rbrace with
  | some i, some j => String.mk ((cs.drop i).take (j + 1 - i))
  | _, _ => content

/-- Test `v.lower() in ["none", "null", ""]` for a string value (lines 126 and 199
of `engine.py`). -/
def isNoneLike (s : String) : Bool :=
  pyLower s = "none" || pyLower s = "null" || pyLower s = ""

/-- The value-cleaning step shared by both extraction strategies: a string
whose (untrimmed) lowercase form is "none"/"null"/"" becomes `None`. -/
def cleanVal : Value → Value
  | .vstr s => if isNoneLike s then .vnull else .vstr s
  | v => v

/-- The `cleaned_dict` construction (lines 124–129 / 197–202 of `engine.py`). -/
def cleanMap (d : List (String × Value)) : List (String × Value) :=
  d.map (fun kv => (kv.1, cleanVal kv.2))

/-- The `valid_params` filter of `_extract_parameters_with_structured_output`
(lines 205–209): `v is not None and v != "" and v != "null" and v != "None"
and str(v).lower() != "none" and str(v).strip() != ""`. -/
def keepStruct (v : Value) : Bool :=
  v != .vnull && v != .vstr "" && v != .vstr "null" && v != .vstr "None" &&
    pyLower v.toStr != "none" && pyTrim v.toStr != ""

/-- The `valid_params` filter of `_extract_parameters_with_fallback`
(lines 132–135): `v is not None and v != "" and str(v).strip() != ""`. -/
def keepFB (v : Value) : Bool :=
  v != .vnull && v != .vstr "" && pyTrim v.toStr != ""

/-- Model of `_extract_parameters_with_fallback` (lines 68–142 of `engine.py`).  The
whole body runs inside `try: … except Exception: return {}`, so every failure
(LLM call raising, `json.loads` raising, non-dict JSON) yields the empty map
and the function never raises for a registered phase. -/
def extract_parameters_with_fallback (env : Env) (message phase_name : String) :
    List (String × Value) :=
  match env.freeTextOracle message phase_name with
  | .error _ => []
  | .ok response =>
      let content := braceSlice (stripFences (pyTrim response))
      match env.decodeJson content with
      | none => []
      | some extracted => (cleanMap extracted).filter (fun kv => keepFB kv.2)

/-- The retry loop of `_extract_parameters_with_structured_output`
(lines 186–230): `remaining` counts the loop iterations still to run and
`attempt` is the 0-based Python loop index; on the last failed attempt
(`attempt == retries - 1`, i.e. `remaining` about to reach 0) the fallback is
tried, and since the fallback never raises, its result is returned — the
`raise ParameterExtractionError` on line 228 is unreachable, which is why the
error branch of the return type is never produced. -/
def extractStructuredLoop (env : Env) (message phase_name : String) :
    Nat → Nat → Except String (List (String × Value))
  | 0, _ => .ok []
  | remaining + 1, attempt =>
      match env.extractOracle attempt message phase_name with
      | .ok d => .ok ((cleanMap d).filter (fun kv => keepStruct kv.2))
      | .error _ =>
          if remaining = 0 then
            .ok (extract_parameters_with_fallback env message phase_name)
          else
            extractStructuredLoop env message phase_name remaining (attempt + 1)

/-- Model of `_extract_parameters_with_structured_output` (lines 144–230 of
`engine.py`). -/
def extract_parameters_with_structured_output (env : Env) (retries : Nat)
    (message phase_name : String) : Except String (List (String × Value)) :=
  extractStructuredLoop env message phase_name retries 0

/-- Model of `_validate_parameters` (lines 232–250): wrap any exception raised by
`param_model.model_validate` into
`ValidationError("Parameter validation failed: " + str(e))`. -/
def validate_parameters (params : List (String × Value)) (pm : ParamModel) :
    Except String (List (String × Value)) :=
  match pm.validate params with
  | .ok validated => .ok validated
  | .error e => .error ("Parameter validation failed: " ++ e)

/-- The missing test of `_get_missing_parameters` (lines 268–272):
`value is None or value == "" or str(value).lower() in
["none", "not specified", "null"] or str(value).strip() == ""` (an absent key
reads as `None`). -/
def isMissingValue : Option Value → Bool
  | none => true
  | some v =>
      v == .vnull || v == .vstr "" ||
        pyLower v.toStr == "none" || pyLower v.toStr == "not specified" ||
        pyLower v.toStr == "null" || pyTrim v.toStr == ""

/-- Model of `_get_missing_parameters` (lines 252–275 of `engine.py`). -/
def get_missing_parameters (current_params : List (String × Value))
    (pm : ParamModel) : List String :=
  let user_input_fields :=
    match pm.userInputFields? with
    | some fs => fs
    | none => (pm.fields.filter (fun f : FieldInfo => !f.excluded)).map
        (fun f : FieldInfo => f.name)
  user_input_fields.filter (fun f => isMissingValue (alookup current_params f))

/-- One bullet of the parameter request (lines 290–305 of `engine.py`): skip
computed fields, skip unknown fields (a name absent from `model_fields`
contributes nothing), skip fields marked `exclude=True`, otherwise
`"• **<Title>**: <description>"` plus up to three examples. -/
def paramRequestLine (pm : ParamModel) (computed : List String) (param : String) :
    Option String :=
  if computed.contains param then none
  else
    match pm.fields.find? (fun f : FieldInfo => f.name = param) with
    | none => none
    | some field_info =>
        if field_info.excluded then none
        else
          let description :=
            field_info.description?.getD ("the " ++ replaceUnderscores param)
          let example_text :=
            if field_info.examples.isEmpty then ""
            else " (e.g., " ++ String.intercalate ", " (field_info.examples.take 3) ++ ")"
          some ("• **" ++ pythonTitle (replaceUnderscores param) ++ "**: " ++
            description ++ example_text)

/-- Model of `_create_parameter_request_message` (lines 277–313 of `engine.py`). -/
def create_parameter_request_message (missing_params : List String)
    (pm : ParamModel) (phase_name : String) (is_retry : Bool) : String :=
  let intro :=
    if is_retry then "Let me help you provide the correct information:"
    else "I need some additional information for your " ++
      replaceUnderscores phase_name ++ ":"
  let computed := pm.computedFields?.getD []
  let param_requests := missing_params.filterMap (paramRequestLine pm computed)
  if param_requests.isEmpty then
    "All required information has been collected. Processing your request..."
  else
    intro ++ "\n    " ++ String.intercalate "\n" param_requests ++
      "\n    Please provide these details and I'll continue with the workflow."

/-- The age remediation text of `_create_validation_error_message`
(lines 454–463 of `engine.py`, after `.strip()`; interior indentation of the
Python triple-quoted literal preserved). -/
def ageErrorText : String :=
  "❌ **Invalid Age Provided**\n\n            The age you entered is not valid. Please provide your age as:\n            - A number between 0 and 120\n            - Examples: \"45\", \"thirty-five\", \"aged 45\"\n\n            Please tell me your correct age."

/-- The currency/amount remediation text (lines 465–475, after `.strip()`). -/
def currencyErrorText : String :=
  "❌ **Invalid Amount Provided**\n\n                The amount you entered is not valid. Please provide amounts as:\n                - £50000 or £50,000\n                - 50k or 50000\n                - \"fifty thousand pounds\"\n\n                Please provide the correct amount."

/-- The date remediation text (lines 477–487, after `.strip()`). -/
def dateErrorText : String :=
  "❌ **Invalid Date Provided**\n\n    The date you entered is not valid. Please provide dates as:\n    - dd/mm/yyyy format (e.g., 15/03/2024)\n    - \"today\" for current date\n    - Month Year (e.g., \"March 2024\")\n\n    Please provide the correct date."

/-- Model of `_create_validation_error_message` (lines 440–497 of `engine.py`):
the categories are tested in order age, currency/amount, date; otherwise a
generic wrapped message. -/
def create_validation_error_message (error_str : String) (phase_name : String) :
    String :=
  if strIn (pyLower error_str) "age" then ageErrorText
  else if strIn (pyLower error_str) "currency" || strIn (pyLower error_str) "amount" then
    currencyErrorText
  else if strIn (pyLower error_str) "date" then dateErrorText
  else
    "❌ **Invalid Input Provided**\n\n    " ++ error_str ++
      "\n\n    Please provide the correct information for " ++
      replaceUnderscores phase_name ++ "."

/-- The per-phase parameter map of a state (`state["params"].get(name, {})`). -/
def phaseParamsOf (st : WState) (name : String) : List (String × Value) :=
  (alookup st.params name).getD []

/-- The `clean_params` computation (line 524 of `engine.py`): strip the reserved bookkeeping
keys. -/
def stripInternal (m : List (String × Value)) : List (String × Value) :=
  m.filter (fun kv => !(pyStartsWith kv.1 "__"))

/-- The missing-field set the executor computes for a phase of a state. -/
def missingOf (pd : PhaseDef) (st : WState) : List String :=
  get_missing_parameters (stripInternal (phaseParamsOf st pd.name)) pd.required_params

/-- The phase node `enhanced_phase_node` built by `_create_enhanced_phase_node`
(lines 499–642 of `engine.py`), as the full merged successor state (returned
update dicts merged channel-wise: `messages` appends, other channels are
overwritten, channels absent from the returned dict keep their value; the
in-place initialisation `state["params"][phase_name] = {}` on lines 517–518
mutates the object held by the `params` channel and therefore persists in
every branch after it; the in-place `state["status"] = EXECUTING` write on
line 556 is not part of any returned dict and does not persist).  The node
closes over no extraction capability: its body performs no extractor call. -/
def enhanced_phase_node (pd : PhaseDef) (st : WState) : WState :=
  if st.status = .failed then
    -- lines 505–513: short-circuit a failure already recorded by the supervisor
    let error_msg := st.error_message.getD "❌ **Error**: Workflow failed"
    { st with messages := st.messages ++ [.ai error_msg],
              awaiting_input := false, status := .failed }
  else
    let phase_params := phaseParamsOf st pd.name
    let params0 :=
      if (alookup st.params pd.name).isSome then st.params
      else aset st.params pd.name []
    let clean_params := stripInternal phase_params
    let missing_params := get_missing_parameters clean_params pd.required_params
    if missing_params = [] then
      match validate_parameters clean_params pd.required_params with
      | .error e =>
          -- lines 606–623: validation failure, retry-same-phase
          let vmsg := create_validation_error_message e pd.name
          let newPhaseMap :=
            aset (aset phase_params "__validation_failed__" (.vbool true))
              "__last_validation_error__" (.vstr e)
          { st with messages := st.messages ++ [.ai vmsg],
                    awaiting_input := true,
                    current_phase := some pd.name,
                    status := .collecting,
                    params := aset params0 pd.name newPhaseMap,
                    error_count := st.error_count + 1 }
      | .ok validated =>
          match pd.workflow_function validated with
          | .error e =>
              -- lines 624–632: business function raised
              let emsg := "❌ **Error in " ++ replaceUnderscores pd.name ++ "**: " ++ e
              { st with messages := st.messages ++ [.ai emsg],
                        awaiting_input := false, status := .failed,
                        params := params0,
                        error_count := st.error_count + 1 }
          | .ok result =>
              let phase_status := result.status?.getD "completed"
              if phase_status = "completed" || phase_status = "completed_with_warnings" then
                -- lines 562–572: terminal success; the returned dict's
                -- `results` entry overwrites the whole channel
                let msg := result.completion_message?.getD
                  ("✅ " ++ pythonTitle (replaceUnderscores pd.name) ++
                    " completed successfully!")
                { st with messages := st.messages ++ [.ai msg],
                          awaiting_input := false, current_phase := none,
                          results := [(pd.name, result)],
                          params := params0,
                          status := .completed }
              else if phase_status = "incomplete" then
                -- lines 574–584
                let msg := result.completion_message?.getD
                  ("⚠️ " ++ pythonTitle (replaceUnderscores pd.name) ++
                    " needs additional information")
                { st with messages := st.messages ++ [.ai msg],
                          awaiting_input := true, current_phase := some pd.name,
                          params := params0,
                          status := .collecting }
              else if phase_status = "failed" then
                -- lines 586–595: terminal failure, no result stored
                let msg := result.completion_message?.getD
                  ("❌ " ++ pythonTitle (replaceUnderscores pd.name) ++
                    " failed validation")
                { st with messages := st.messages ++ [.ai msg],
                          awaiting_input := false, status := .failed,
                          params := params0,
                          error_count := st.error_count + 1 }
              else
                -- lines 596–605: unknown tag treated as completed
                let msg := result.completion_message?.getD "Workflow completed"
                { st with messages := st.messages ++ [.ai msg],
                          awaiting_input := false, current_phase := none,
                          results := [(pd.name, result)],
                          params := params0,
                          status := .completed }
    else
      -- lines 529–549: missing parameters — build the request, set the flag
      let request_message :=
        create_parameter_request_message missing_params pd.required_params pd.name false
      let newPhaseMap := aset phase_params "__parameter_request_sent__" (.vbool true)
      { st with messages := st.messages ++ [.ai request_message],
                awaiting_input := true,
                current_phase := some pd.name,
                params := aset params0 pd.name newPhaseMap,
                status := .collecting }

/-- The latest human message (lines 334–339 of `engine.py`): scan the history
in reverse for a `HumanMessage`, defaulting to `""`. -/
def latestHuman (msgs : List Msg) : String :=
  match msgs.reverse.find? (fun m => match m with | .human _ => true | _ => false) with
  | some (.human c) => c
  | _ => ""

/-- Model of `self.phase_names[0]`.  The Python code would raise `IndexError` on an
empty registry; every theorem below that reaches this value assumes a
non-empty phase list. -/
def firstPhaseName (phases : List PhaseDef) : String :=
  match phases with
  | [] => ""
  | pd :: _ => pd.name

/-- The registered phase names, `self.phase_names`. -/
def phaseNames (phases : List PhaseDef) : List String :=
  phases.map (fun pd : PhaseDef => pd.name)

/-- Lookup of `self.phase_definitions[name]`. -/
def findPhase (phases : List PhaseDef) (name : String) : Option PhaseDef :=
  phases.find? (fun pd : PhaseDef => pd.name = name)

/-- The error text of the `StateTransitionError` raised on line 345. -/
def emptyMessageErrorText : String :=
  "Empty message provided - cannot determine workflow intent"

/-- The state update returned by the critical-error branch of
`_supervisor_node` (lines 417–430 of `engine.py`), merged into the channels:
an `AIMessage` appended, `awaiting_input=False`, `status=FAILED`, the computed
`error_count`, the formatted error message, `current_phase=None`, and the
pseudo-decision `next_phase="error"`. -/
def criticalErrorState (st : WState) (error_count : Nat) (error_msg : String) :
    WState :=
  { st with messages := st.messages ++ [.ai error_msg],
            awaiting_input := false,
            status := .failed,
            error_count := error_count,
            error_message := some error_msg,
            current_phase := none,
            supervisor_out := some ⟨"error", "critical_error", 0⟩ }

/-- The outcome of one supervisor-node run: the merged successor state, the
local `supervisor_decision` of the success path (the Router's decision), and
the `Command(goto=...)` target (`none` when the node returns a plain dict and
the turn ends, since the `supervisor` node has no static outgoing edge). -/
structure SupervisorResult where
  state : WState
  decision : Option SupervisorOut
  goto : Option String

/-- Model of `_supervisor_node` (lines 331–438 of `engine.py`).

* Empty/whitespace latest message: lines 341–345 write `status=FAILED` and
  `error_count += 1` into the node's local state dict and raise
  `StateTransitionError`; the handler on line 415 then reads the already
  incremented counter and adds 1 again (net `+ 2`), and since the exception
  text contains "Empty message" it returns the critical-error dict.
* Classification raising: the handler computes `error_count + 1`; if the
  exception text happens to contain "Empty message" the critical-error dict is
  returned, otherwise the in-place recovery writes (lines 433–437) are lost
  (nothing is returned besides `Command(goto=first phase)`).
* Classification returning: a name outside the registry is replaced by the
  first registered phase with confidence 0.5 (lines 383–386); the in-place
  writes of lines 388–391 are not persisted (`Command` carries no update), but
  the opportunistic extraction merge (lines 394–409) mutates the object held
  by the `params` channel and persists; a `ParameterExtractionError` from the
  extractor is swallowed. -/
def supervisor_node (env : Env) (cfg : WorkflowConfig) (phases : List PhaseDef)
    (st : WState) : SupervisorResult :=
  let latest_message := latestHuman st.messages
  if pyTrim latest_message = "" then
    ⟨criticalErrorState st (st.error_count + 2)
      ("❌ **Error**: " ++ emptyMessageErrorText), none, none⟩
  else
    match env.classify st.messages with
    | .error e =>
        if strIn e "Empty message" then
          ⟨criticalErrorState st (st.error_count + 1) ("❌ **Error**: " ++ e),
            none, none⟩
        else
          ⟨st, none, some (firstPhaseName phases)⟩
    | .ok dec0 =>
        let dec :=
          if (phaseNames phases).contains dec0.next_phase then dec0
          else { dec0 with next_phase := firstPhaseName phases,
                           confidence := (1 : Rat) / 2 }
        let st' :=
          match extract_parameters_with_structured_output env
              cfg.parameter_extraction_retries latest_message dec.next_phase with
          | .ok extracted =>
              let cur := (alookup st.params dec.next_phase).getD []
              { st with params := aset st.params dec.next_phase (aupdate cur extracted) }
          | .error _ => st
        ⟨st', some dec, some dec.next_phase⟩

/-- One `graph.invoke` pass: `START → supervisor`, then the phase node named
by the supervisor's `Command(goto=...)` (always a registered phase when
present), then `END`. -/
def runGraphOnce (env : Env) (cfg : WorkflowConfig) (phases : List PhaseDef)
    (st : WState) : WState :=
  let r := supervisor_node env cfg phases st
  match r.goto with
  | none => r.state
  | some p =>
      match findPhase phases p with
      | some pd => enhanced_phase_node pd r.state
      | none => r.state

/-- The fresh state built by `run_workflow` (lines 656–667 of `engine.py`). -/
def initialState (initial_message : String) : WState :=
  { messages := [.human initial_message], params := [], results := [],
    supervisor_out := none, current_phase := none, awaiting_input := false,
    status := .pending, error_count := 0, iteration_count := 0,
    error_message := none }

/-- The auto-continuation loop of `run_workflow` (lines 673–700 of
`engine.py`), with the loop bound `iteration < max_iterations` rendered as
fuel: while the turn ended `awaiting_input` with no results, and the current
phase's parameter map (bookkeeping keys stripped) is actually complete,
synthesize a "continue with execution" human message and re-invoke the graph
(which re-enters at the supervisor); otherwise stop.  An unregistered
`current_phase` would raise a `KeyError` caught by the outer handler of
`run_workflow`; it is unreachable from the engine's own transitions and
modelled as a stop. -/
def autoContinuationLoop (env : Env) (cfg : WorkflowConfig)
    (phases : List PhaseDef) : Nat → WState → WState
  | 0, st => st
  | fuel + 1, st =>
      if st.awaiting_input && st.results.isEmpty then
        match st.current_phase with
        | some cp =>
            if (alookup st.params cp).isSome then
              match findPhase phases cp with
              | some pd =>
                  let phase_params := (alookup st.params cp).getD []
                  let missing :=
                    get_missing_parameters (stripInternal phase_params)
                      pd.required_params
                  if missing.isEmpty then
                    autoContinuationLoop env cfg phases fuel
                      (runGraphOnce env cfg phases
                        { st with messages :=
                            st.messages ++ [.human "continue with execution"] })
                  else st
              | none => st
            else st
        | none => st
      else st

/-- Model of `run_workflow` (lines 644–708 of `engine.py`): fresh state, one graph
pass, then the bounded auto-continuation loop when enabled. -/
def run_workflow (env : Env) (cfg : WorkflowConfig) (phases : List PhaseDef)
    (initial_message : String) : WState :=
  let result := runGraphOnce env cfg phases (initialState initial_message)
  if cfg.enable_auto_continuation then
    autoContinuationLoop env cfg phases cfg.max_iterations result
  else result

/-- The recovery-pass executor described by §4.4 step 2 of the specification,
written from the spec's words for comparison with `enhanced_phase_node` (a
refinement model, not code of the repository): when required fields are
missing and no "request already sent" flag is set for the phase, run one more
best-effort extractor pass over the most recent user message (failures
swallowed), merge the extracted fields, recompute the missing set, and only
then proceed as the executor otherwise would. -/
def phaseNodeRecoverySpec (env : Env) (cfg : WorkflowConfig) (pd : PhaseDef)
    (st : WState) : WState :=
  if st.status = .failed then enhanced_phase_node pd st
  else
    let phase_params := phaseParamsOf st pd.name
    let missing := get_missing_parameters (stripInternal phase_params) pd.required_params
    if missing = [] then enhanced_phase_node pd st
    else if (alookup phase_params "__parameter_request_sent__").isSome then
      enhanced_phase_node pd st
    else
      let extracted :=
        match extract_parameters_with_structured_output env
            cfg.parameter_extraction_retries (latestHuman st.messages) pd.name with
        | .ok d => d
        | .error _ => []
      enhanced_phase_node pd
        { st with params := aset st.params pd.name (aupdate phase_params extracted) }

theorem alookup_aset_self {α : Type} (m : List (String × α)) (k : String) (v : α) :
    alookup (aset m k v) k = some v := by
  induction m with
  | nil => simp [aset, alookup]
  | cons kv rest ih =>
      obtain ⟨k', v'⟩ := kv
      by_cases h : k' = k
      · simp [aset, alookup, h]
      · simp [aset, alookup, h, ih]

theorem alookup_aset_ne {α : Type} (m : List (String × α)) (k q : String) (v : α)
    (h : q ≠ k) : alookup (aset m k v) q = alookup m q := by
  induction m with
  | nil => simp [aset, alookup, Ne.symm h]
  | cons kv rest ih =>
      obtain ⟨k0, v0⟩ := kv
      by_cases h0 : k0 = k
      · subst h0
        simp [aset, alookup, Ne.symm h]
      · simp [aset, alookup, h0, ih]

theorem aset_aset_same {α : Type} (m : List (String × α)) (k : String) (a b : α) :
    aset (aset m k a) k b = aset m k b := by
  induction m with
  | nil => simp [aset]
  | cons kv rest ih =>
      obtain ⟨k', v'⟩ := kv
      by_cases h : k' = k
      · simp [aset, h]
      · simp [aset, h, ih]

theorem stripInternal_aset_internal (m : List (String × Value)) (k : String)
    (v : Value) (h : pyStartsWith k "__" = true) :
    stripInternal (aset m k v) = stripInternal m := by
  induction m with
  | nil => simp [aset, stripInternal, h]
  | cons kv rest ih =>
      obtain ⟨k', v'⟩ := kv
      by_cases h0 : k' = k
      · subst h0
        simp [aset, stripInternal, h]
      · simp only [aset, if_neg h0, stripInternal, List.filter_cons] at ih ⊢
        cases hk' : !(pyStartsWith k' "__") <;> simp [hk', ih]

theorem aset_collapse_init (params : List (String × List (String × Value)))
    (name : String) (x : List (String × Value)) :
    aset (if (alookup params name).isSome then params else aset params name [])
        name x = aset params name x := by
  by_cases h : (alookup params name).isSome
  · simp [h]
  · simp [h, aset_aset_same]

/-- Shared description of the missing-parameters branch of the executor
(lines 529–549 of `engine.py`): with bookkeeping keys stripped the missing set
is computed from the phase map as it stands, the request prompt is built from
that very set, the request-sent flag is written, and no other field of the
session state changes. -/
theorem enhanced_phase_node_missing_eq (pd : PhaseDef) (st : WState)
    (h1 : st.status ≠ .failed) (h2 : missingOf pd st ≠ []) :
    enhanced_phase_node pd st =
      { st with
          messages := st.messages ++
            [.ai (create_parameter_request_message (missingOf pd st)
              pd.required_params pd.name false)],
          awaiting_input := true,
          current_phase := some pd.name,
          params := aset st.params pd.name
            (aset (phaseParamsOf st pd.name) "__parameter_request_sent__"
              (.vbool true)),
          status := .collecting } := by
  simp only [missingOf] at h2
  simp only [enhanced_phase_node, if_neg h1, if_neg h2, missingOf,
    aset_collapse_init]

/-- Default configuration (all `WorkflowConfig` defaults). -/
def cfgD : WorkflowConfig := {}

/-- Concrete report-phase parameter model used by the test scenarios of the
specification (`{user_name, report_type}`); its pydantic validator accepts
every complete map. -/
def pmReport : ParamModel :=
  { fields := [⟨"user_name", some "the name of the user", ["Alice", "Bob"], false⟩,
               ⟨"report_type", some "the type of report", ["monthly", "quarterly"], false⟩],
    userInputFields? := some ["user_name", "report_type"],
    computedFields? := none,
    validate := fun m => .ok m }

/-- Concrete `generate_report` phase definition fixture. -/
def pdReport : PhaseDef :=
  { name := "generate_report", required_params := pmReport,
    workflow_function := fun _ => .ok ⟨some "completed", some "Report generated"⟩,
    description := "Creating reports, generating documents" }

/-- Oracles whose structured extractor always finds both report fields. -/
def envC1 : Env :=
  { classify := fun _ => .ok ⟨"generate_report", "generate a report", 9/10⟩,
    extractOracle := fun _ _ _ =>
      .ok [("user_name", .vstr "Alice"), ("report_type", .vstr "monthly")],
    freeTextOracle := fun _ _ => .error "unused",
    decodeJson := fun _ => none }

/-- A fresh-turn state whose report-phase parameter map is empty: two fields
missing and no request-sent flag. -/
def stC1 : WState := initialState "Generate a monthly report for Alice"

/-- C1, counterexample: the claim says the Phase Executor behaves like the
recovery-pass procedure (one more best-effort extractor pass, missing set
recomputed, before building the parameter-request prompt) whenever fields are
missing and the request-sent flag is unset.  On a state with both report
fields missing, the flag unset, and an extractor that would deliver both
fields, the code's executor still returns the parameter-request state
(`COLLECTING_PARAMS`) while the recovery-pass procedure would complete the
phase: `enhanced_phase_node` (lines 515–549 of `engine.py`) performs no
extractor call at all. -/
theorem C1_counterexample :
    enhanced_phase_node pdReport stC1 ≠
      phaseNodeRecoverySpec envC1 cfgD pdReport stC1 := by
  intro h
  have hs := congrArg WState.status h
  revert hs
  decide

/-- C1, amended: when required fields are missing (whatever the request-sent
flag's value), the executor directly builds the parameter-request prompt from
the missing set of the map as it stands, sets the flag, marks the phase
collecting, and changes nothing else — no extractor pass is run and the
missing set is not recomputed (`enhanced_phase_node` closes over no
extraction capability). -/
theorem C1_executor_prompts_without_recovery (pd : PhaseDef) (st : WState)
    (h1 : st.status ≠ .failed) (h2 : missingOf pd st ≠ []) :
    enhanced_phase_node pd st =
      { st with
          messages := st.messages ++
            [.ai (create_parameter_request_message (missingOf pd st)
              pd.required_params pd.name false)],
          awaiting_input := true,
          current_phase := some pd.name,
          params := aset st.params pd.name
            (aset (phaseParamsOf st pd.name) "__parameter_request_sent__"
              (.vbool true)),
          status := .collecting } :=
  enhanced_phase_node_missing_eq pd st h1 h2

/-- C1, witness for the amended theorem at the concrete report fixture. -/
theorem C1_amended_witness :
    stC1.status ≠ WStatus.failed ∧ missingOf pdReport stC1 ≠ [] ∧
      enhanced_phase_node pdReport stC1 =
        { stC1 with
            messages := stC1.messages ++
              [.ai (create_parameter_request_message (missingOf pdReport stC1)
                pdReport.required_params pdReport.name false)],
            awaiting_input := true,
            current_phase := some pdReport.name,
            params := aset stC1.params pdReport.name
              (aset (phaseParamsOf stC1 pdReport.name)
                "__parameter_request_sent__" (.vbool true)),
            status := .collecting } :=
  ⟨by decide, by decide,
    C1_executor_prompts_without_recovery pdReport stC1 (by decide) (by decide)⟩

/-- Oracles where every capability fails: each structured attempt raises and
the free-text fallback's LLM call raises too. -/
def envAllFail : Env :=
  { classify := fun _ => .error "classifier down",
    extractOracle := fun _ _ _ => .error "structured output failure",
    freeTextOracle := fun _ _ => .error "llm unavailable",
    decodeJson := fun _ => none }

/-- C2: with the default 3 retries, when every schema-constrained attempt
fails and the free-text fallback fails as well, the extractor returns the
empty map instead of raising: `_extract_parameters_with_fallback` catches its
own exceptions and returns `{}` (lines 140–142 of `engine.py`), so the
`raise ParameterExtractionError` on line 228 is unreachable — contradicting
the claim and the function's own docstring ("Raises: ParameterExtractionError:
If extraction fails after retries"). -/
theorem C2_exhausted_extraction_returns_empty :
    extract_parameters_with_structured_output envAllFail 3
      "Generate a monthly report for Alice" "generate_report" =
      Except.ok [] := rfl

/-- An initial state over a whitespace-only triggering message. -/
def stEmptyMsg : WState := initialState "   "

/-- C3, counterexample: the Router's empty-message fast path does not
increment `error_count` by one — it increments it twice (line 344 bumps the
counter before raising, and the handler on line 415 bumps the already-bumped
value again), so from a fresh state (`error_count = 0`) the turn ends with
`error_count = 2`, not `1`. -/
theorem C3_counterexample :
    (supervisor_node envAllFail cfgD [pdReport] stEmptyMsg).state.error_count ≠
      stEmptyMsg.error_count + 1 := by decide

/-- C3, amended: on an empty/whitespace triggering message the Router ends
the turn without invoking any phase (`goto = none`, and the graph pass
returns the supervisor's state unchanged), sets `status = FAILED`, attaches
the explicit error message, and increments `error_count` twice (net `+ 2`);
no classification or extraction capability is invoked — the outcome is
independent of every injected capability. -/
theorem C3_empty_message_fast_path (env : Env) (cfg : WorkflowConfig)
    (phases : List PhaseDef) (st : WState)
    (h : pyTrim (latestHuman st.messages) = "") :
    (supervisor_node env cfg phases st).goto = none ∧
    (supervisor_node env cfg phases st).state.status = .failed ∧
    (supervisor_node env cfg phases st).state.error_count = st.error_count + 2 ∧
    (supervisor_node env cfg phases st).state.error_message =
      some ("❌ **Error**: " ++ emptyMessageErrorText) ∧
    runGraphOnce env cfg phases st = (supervisor_node env cfg phases st).state ∧
    (∀ env' : Env,
      supervisor_node env' cfg phases st = supervisor_node env cfg phases st) := by
  refine ⟨?_, ?_, ?_, ?_, ?_, ?_⟩ <;>
    simp [supervisor_node, runGraphOnce, criticalErrorState, h]

/-- C3, witness for the amended theorem at the whitespace-message fixture. -/
theorem C3_amended_witness :
    pyTrim (latestHuman stEmptyMsg.messages) = "" ∧
    ((supervisor_node envAllFail cfgD [pdReport] stEmptyMsg).goto = none ∧
     (supervisor_node envAllFail cfgD [pdReport] stEmptyMsg).state.status = .failed ∧
     (supervisor_node envAllFail cfgD [pdReport] stEmptyMsg).state.error_count =
       stEmptyMsg.error_count + 2 ∧
     (supervisor_node envAllFail cfgD [pdReport] stEmptyMsg).state.error_message =
       some ("❌ **Error**: " ++ emptyMessageErrorText) ∧
     runGraphOnce envAllFail cfgD [pdReport] stEmptyMsg =
       (supervisor_node envAllFail cfgD [pdReport] stEmptyMsg).state ∧
     (∀ env' : Env,
       supervisor_node env' cfgD [pdReport] stEmptyMsg =
         supervisor_node envAllFail cfgD [pdReport] stEmptyMsg)) :=
  ⟨by decide,
    C3_empty_message_fast_path envAllFail cfgD [pdReport] stEmptyMsg (by decide)⟩

/-- C4: repeated Phase Executor invocations against an unchanged incomplete
parameter map are idempotent: the missing-field set is the same on every
invocation; within the parameter map only the `__parameter_request_sent__`
flag changes, and it is written on the first invocation (writing it again
changes nothing); a second invocation leaves every workflow field of the
session state (params, results, status, current phase, awaiting flag,
counters, decision, error message) exactly as the first left it — only the
append-only message log receives the re-emitted prompt, the turn's output. -/
theorem C4_executor_idempotent (pd : PhaseDef) (st : WState)
    (h1 : st.status ≠ .failed) (h2 : missingOf pd st ≠ []) :
    missingOf pd (enhanced_phase_node pd st) = missingOf pd st ∧
    alookup (enhanced_phase_node pd st).params pd.name =
      some (aset (phaseParamsOf st pd.name) "__parameter_request_sent__"
        (.vbool true)) ∧
    missingOf pd (enhanced_phase_node pd (enhanced_phase_node pd st)) =
      missingOf pd st ∧
    (enhanced_phase_node pd (enhanced_phase_node pd st)).params =
      (enhanced_phase_node pd st).params ∧
    (enhanced_phase_node pd (enhanced_phase_node pd st)).results =
      (enhanced_phase_node pd st).results ∧
    (enhanced_phase_node pd (enhanced_phase_node pd st)).status =
      (enhanced_phase_node pd st).status ∧
    (enhanced_phase_node pd (enhanced_phase_node pd st)).current_phase =
      (enhanced_phase_node pd st).current_phase ∧
    (enhanced_phase_node pd (enhanced_phase_node pd st)).awaiting_input =
      (enhanced_phase_node pd st).awaiting_input ∧
    (enhanced_phase_node pd (enhanced_phase_node pd st)).error_count =
      (enhanced_phase_node pd st).error_count ∧
    (enhanced_phase_node pd (enhanced_phase_node pd st)).iteration_count =
      (enhanced_phase_node pd st).iteration_count ∧
    (enhanced_phase_node pd (enhanced_phase_node pd st)).supervisor_out =
      (enhanced_phase_node pd st).supervisor_out ∧
    (enhanced_phase_node pd (enhanced_phase_node pd st)).error_message =
      (enhanced_phase_node pd st).error_message := by
  have hflag : pyStartsWith "__parameter_request_sent__" "__" = true := by decide
  have e1 := enhanced_phase_node_missing_eq pd st h1 h2
  have hparams1 : (enhanced_phase_node pd st).params =
      aset st.params pd.name
        (aset (phaseParamsOf st pd.name) "__parameter_request_sent__"
          (.vbool true)) := by rw [e1]
  have hlk1 : alookup (enhanced_phase_node pd st).params pd.name =
      some (aset (phaseParamsOf st pd.name) "__parameter_request_sent__"
        (.vbool true)) := by
    rw [hparams1, alookup_aset_self]
  have hpp1 : phaseParamsOf (enhanced_phase_node pd st) pd.name =
      aset (phaseParamsOf st pd.name) "__parameter_request_sent__"
        (.vbool true) := by
    simp [phaseParamsOf, hlk1]
  have hm1 : missingOf pd (enhanced_phase_node pd st) = missingOf pd st := by
    simp only [missingOf]
    rw [hpp1, stripInternal_aset_internal _ _ _ hflag]
  have hst1 : (enhanced_phase_node pd st).status = .collecting := by rw [e1]
  have h1' : (enhanced_phase_node pd st).status ≠ .failed := by
    rw [hst1]; intro h; cases h
  have h2' : missingOf pd (enhanced_phase_node pd st) ≠ [] := by
    rw [hm1]; exact h2
  have e2 := enhanced_phase_node_missing_eq pd (enhanced_phase_node pd st) h1' h2'
  have hparams2 : (enhanced_phase_node pd (enhanced_phase_node pd st)).params =
      (enhanced_phase_node pd st).params := by
    rw [e2]
    simp only [hpp1, hparams1, aset_aset_same]
  have hpp2 : phaseParamsOf (enhanced_phase_node pd (enhanced_phase_node pd st))
      pd.name =
      aset (phaseParamsOf st pd.name) "__parameter_request_sent__"
        (.vbool true) := by
    simp [phaseParamsOf, hparams2, hlk1]
  refine ⟨hm1, hlk1, ?_, hparams2, ?_, ?_, ?_, ?_, ?_, ?_, ?_, ?_⟩
  · simp only [missingOf]
    rw [hpp2, stripInternal_aset_internal _ _ _ hflag]
  all_goals rw [e2, e1]

/-- C4, witness at the concrete report fixture (both fields missing,
no flag set). -/
theorem C4_witness :
    stC1.status ≠ WStatus.failed ∧ missingOf pdReport stC1 ≠ [] ∧
    missingOf pdReport (enhanced_phase_node pdReport stC1) =
      missingOf pdReport stC1 ∧
    (enhanced_phase_node pdReport (enhanced_phase_node pdReport stC1)).params =
      (enhanced_phase_node pdReport stC1).params :=
  ⟨by decide, by decide,
    (C4_executor_idempotent pdReport stC1 (by decide) (by decide)).1,
    (C4_executor_idempotent pdReport stC1 (by decide) (by decide)).2.2.2.1⟩

/-- A financial-phase fixture whose pydantic validator rejects every complete
map with an error text mentioning both "age" and "amount". -/
def pmAgeAmount : ParamModel :=
  { fields := [⟨"user_name", some "the name of the user", ["Alice"], false⟩],
    userInputFields? := some ["user_name"], computedFields? := none,
    validate := fun _ => .error "age and amount out of range" }

/-- Phase fixture wrapping `pmAgeAmount`. -/
def pdAgeAmount : PhaseDef :=
  { name := "financial_input_validation", required_params := pmAgeAmount,
    workflow_function := fun _ => .ok ⟨some "completed", none⟩,
    description := "Financial product analysis" }

/-- A state whose financial-phase map is complete (`user_name = "Bob"`). -/
def stFinBob : WState :=
  { initialState "my name is Bob" with
      params := [("financial_input_validation", [("user_name", .vstr "Bob")])] }

set_option maxRecDepth 8192 in
/-- C5, counterexample: a validation error mentioning "amount" does not
always produce a currency-format reprompt — the category test of
`_create_validation_error_message` (lines 453–475 of `engine.py`) checks
"age" first, so an error text mentioning both yields the age guidance, which
contains no currency-format guidance (no "£50000" example line). -/
theorem C5_counterexample :
    strIn (pyLower "Parameter validation failed: age and amount out of range")
      "amount" = true ∧
    (enhanced_phase_node pdAgeAmount stFinBob).messages.getLast? =
      some (.ai ageErrorText) ∧
    strIn ageErrorText "£50000" = false := by decide

/-- C5, amended: on a validation failure over a complete field map the
executor stays on the same phase with `status = COLLECTING_PARAMS` and
`awaiting_input = true`, writes the `__validation_failed__` flag into the
phase's parameter map, increments `error_count` by one, and appends the
categorised remediation message; a validation error mentioning currency or
amount produces the currency-format guidance *provided it does not also
mention age* (the age category is tested first). -/
theorem C5_validation_failure_recovery (pd : PhaseDef) (st : WState)
    (e : String) (h1 : st.status ≠ .failed) (h2 : missingOf pd st = [])
    (h3 : pd.required_params.validate
      (stripInternal (phaseParamsOf st pd.name)) = .error e) :
    (enhanced_phase_node pd st).current_phase = some pd.name ∧
    (enhanced_phase_node pd st).status = .collecting ∧
    (enhanced_phase_node pd st).awaiting_input = true ∧
    alookup ((alookup (enhanced_phase_node pd st).params pd.name).getD [])
      "__validation_failed__" = some (.vbool true) ∧
    (enhanced_phase_node pd st).error_count = st.error_count + 1 ∧
    (enhanced_phase_node pd st).messages = st.messages ++
      [.ai (create_validation_error_message
        ("Parameter validation failed: " ++ e) pd.name)] ∧
    (strIn (pyLower ("Parameter validation failed: " ++ e)) "age" = false →
      (strIn (pyLower ("Parameter validation failed: " ++ e)) "currency" ||
        strIn (pyLower ("Parameter validation failed: " ++ e)) "amount") = true →
      create_validation_error_message ("Parameter validation failed: " ++ e)
        pd.name = currencyErrorText) := by
  have hval : validate_parameters (stripInternal (phaseParamsOf st pd.name))
      pd.required_params = .error ("Parameter validation failed: " ++ e) := by
    simp [validate_parameters, h3]
  have h2' := h2
  simp only [missingOf] at h2'
  have e1 : enhanced_phase_node pd st =
      { st with
          messages := st.messages ++ [.ai (create_validation_error_message
            ("Parameter validation failed: " ++ e) pd.name)],
          awaiting_input := true,
          current_phase := some pd.name,
          status := .collecting,
          params := aset st.params pd.name
            (aset (aset (phaseParamsOf st pd.name) "__validation_failed__"
              (.vbool true)) "__last_validation_error__"
              (.vstr ("Parameter validation failed: " ++ e))),
          error_count := st.error_count + 1 } := by
    simp [enhanced_phase_node, h1, h2', hval, aset_collapse_init]
  have hlk : alookup (enhanced_phase_node pd st).params pd.name =
      some (aset (aset (phaseParamsOf st pd.name) "__validation_failed__"
        (.vbool true)) "__last_validation_error__"
        (.vstr ("Parameter validation failed: " ++ e))) := by
    rw [e1]; exact alookup_aset_self _ _ _
  refine ⟨by rw [e1], by rw [e1], by rw [e1], ?_, by rw [e1], by rw [e1], ?_⟩
  · rw [hlk]
    simp only [Option.getD_some]
    rw [alookup_aset_ne _ _ _ _ (by decide), alookup_aset_self]
  · intro ha hc
    simp [create_validation_error_message, ha, hc]

/-- A financial-phase fixture whose validator rejects with an amount-only
error text. -/
def pmAmountBad : ParamModel :=
  { fields := [⟨"user_name", some "the name of the user", ["Alice"], false⟩],
    userInputFields? := some ["user_name"], computedFields? := none,
    validate := fun _ => .error "invalid amount" }

/-- Phase fixture wrapping `pmAmountBad`. -/
def pdAmountBad : PhaseDef :=
  { name := "financial_input_validation", required_params := pmAmountBad,
    workflow_function := fun _ => .ok ⟨some "completed", none⟩,
    description := "Financial product analysis" }

/-- C5, witness for the amended theorem: a currency-like validation error
(no "age" in its text) at the concrete fixture. -/
theorem C5_amended_witness :
    stFinBob.status ≠ WStatus.failed ∧
    missingOf pdAmountBad stFinBob = [] ∧
    pdAmountBad.required_params.validate
      (stripInternal (phaseParamsOf stFinBob pdAmountBad.name)) =
      .error "invalid amount" ∧
    ((enhanced_phase_node pdAmountBad stFinBob).current_phase =
        some pdAmountBad.name ∧
      (enhanced_phase_node pdAmountBad stFinBob).status = .collecting ∧
      (enhanced_phase_node pdAmountBad stFinBob).awaiting_input = true ∧
      alookup ((alookup (enhanced_phase_node pdAmountBad stFinBob).params
          pdAmountBad.name).getD []) "__validation_failed__" =
        some (.vbool true) ∧
      (enhanced_phase_node pdAmountBad stFinBob).error_count =
        stFinBob.error_count + 1 ∧
      (enhanced_phase_node pdAmountBad stFinBob).messages =
        stFinBob.messages ++
        [.ai (create_validation_error_message
          ("Parameter validation failed: " ++ "invalid amount")
          pdAmountBad.name)] ∧
      (strIn (pyLower ("Parameter validation failed: " ++ "invalid amount"))
          "age" = false →
        (strIn (pyLower ("Parameter validation failed: " ++ "invalid amount"))
            "currency" ||
          strIn (pyLower ("Parameter validation failed: " ++ "invalid amount"))
            "amount") = true →
        create_validation_error_message
          ("Parameter validation failed: " ++ "invalid amount")
          pdAmountBad.name = currencyErrorText)) :=
  ⟨by decide, by decide, rfl,
    C5_validation_failure_recovery pdAmountBad stFinBob "invalid amount"
      (by decide) (by decide) rfl⟩

/-- C6: when the phase's business function returns a result tagged
`"failed"`, the executor sets `status = FAILED`, increments `error_count` by
one, and stores no entry for the phase in the results map — the returned
update (lines 586–595 of `engine.py`) carries no `results` key, so the
results channel is left exactly as it was. -/
theorem C6_failed_business_result (pd : PhaseDef) (st : WState)
    (v : List (String × Value)) (r : BizResult)
    (h1 : st.status ≠ .failed) (h2 : missingOf pd st = [])
    (h3 : pd.required_params.validate
      (stripInternal (phaseParamsOf st pd.name)) = .ok v)
    (h4 : pd.workflow_function v = .ok r)
    (h5 : r.status? = some "failed") :
    (enhanced_phase_node pd st).status = .failed ∧
    (enhanced_phase_node pd st).error_count = st.error_count + 1 ∧
    (enhanced_phase_node pd st).results = st.results := by
  have hval : validate_parameters (stripInternal (phaseParamsOf st pd.name))
      pd.required_params = .ok v := by
    simp [validate_parameters, h3]
  have h2' := h2
  simp only [missingOf] at h2'
  refine ⟨?_, ?_, ?_⟩ <;>
    simp [enhanced_phase_node, h1, h2', hval, h4, h5]

/-- A report phase whose business function always reports terminal failure. -/
def pdFailing : PhaseDef :=
  { name := "generate_report", required_params := pmReport,
    workflow_function := fun _ =>
      .ok ⟨some "failed", some "❌ Report generation failed validation"⟩,
    description := "Creating reports, generating documents" }

/-- A state whose report-phase map is complete. -/
def stReportFull : WState :=
  { initialState "Generate a monthly report for Alice" with
      params := [("generate_report",
        [("user_name", .vstr "Alice"), ("report_type", .vstr "monthly")])] }

/-- C6, witness at the concrete failing-business-function fixture. -/
theorem C6_witness :
    stReportFull.status ≠ WStatus.failed ∧
    missingOf pdFailing stReportFull = [] ∧
    ((enhanced_phase_node pdFailing stReportFull).status = .failed ∧
      (enhanced_phase_node pdFailing stReportFull).error_count =
        stReportFull.error_count + 1 ∧
      (enhanced_phase_node pdFailing stReportFull).results =
        stReportFull.results) :=
  ⟨by decide, by decide,
    C6_failed_business_result pdFailing stReportFull
      [("user_name", .vstr "Alice"), ("report_type", .vstr "monthly")]
      ⟨some "failed", some "❌ Report generation failed validation"⟩
      (by decide) (by decide) rfl rfl rfl⟩

/-- C7: for a non-empty triggering message, when the classification
capability returns a decision, the Router's decision always names a
registered phase: a name inside the registry is kept as is, a name outside
it is deterministically replaced by the first registered phase with
confidence 0.5 (lines 383–386 of `engine.py`); either way the turn proceeds
to that phase (`goto`) and the status is not failed — it is left untouched by
the supervisor pass. -/
theorem C7_router_decision_registered (env : Env) (cfg : WorkflowConfig)
    (phases : List PhaseDef) (st : WState) (d : SupervisorOut)
    (hne : phases ≠ [])
    (hmsg : pyTrim (latestHuman st.messages) ≠ "")
    (hc : env.classify st.messages = .ok d) :
    ∃ d' : SupervisorOut,
      (supervisor_node env cfg phases st).decision = some d' ∧
      d'.next_phase ∈ phaseNames phases ∧
      (supervisor_node env cfg phases st).goto = some d'.next_phase ∧
      (supervisor_node env cfg phases st).state.status = st.status ∧
      ((phaseNames phases).contains d.next_phase = false →
        d' = { d with next_phase := firstPhaseName phases,
                      confidence := (1 : Rat) / 2 }) := by
  obtain ⟨p, ps, rfl⟩ : ∃ p ps, phases = p :: ps := by
    cases phases with
    | nil => exact absurd rfl hne
    | cons p ps => exact ⟨p, ps, rfl⟩
  by_cases hcont : (phaseNames (p :: ps)).contains d.next_phase = true
  · have hmem : d.next_phase ∈ phaseNames (p :: ps) := by simpa using hcont
    refine ⟨d, ?_, hmem, ?_, ?_, ?_⟩
    · simp [supervisor_node, hmsg, hc, hcont, hmem]
    · simp [supervisor_node, hmsg, hc, hcont, hmem]
    · cases hE : extract_parameters_with_structured_output env
          cfg.parameter_extraction_retries (latestHuman st.messages)
          d.next_phase with
      | error e => simp [supervisor_node, hmsg, hc, hcont, hmem, hE]
      | ok extracted => simp [supervisor_node, hmsg, hc, hcont, hmem, hE]
    · intro hfalse
      rw [hcont] at hfalse
      cases hfalse
  · have hcont' : (phaseNames (p :: ps)).contains d.next_phase = false := by
      simpa using hcont
    have hnmem : d.next_phase ∉ phaseNames (p :: ps) := by simpa using hcont
    refine ⟨{ d with next_phase := firstPhaseName (p :: ps),
                     confidence := (1 : Rat) / 2 }, ?_, ?_, ?_, ?_, ?_⟩
    · simp [supervisor_node, hmsg, hc, hcont', hnmem]
    · simp [firstPhaseName, phaseNames]
    · simp [supervisor_node, hmsg, hc, hcont', hnmem]
    · cases hE : extract_parameters_with_structured_output env
          cfg.parameter_extraction_retries (latestHuman st.messages)
          (firstPhaseName (p :: ps)) with
      | error e => simp [supervisor_node, hmsg, hc, hcont', hnmem, hE]
      | ok extracted => simp [supervisor_node, hmsg, hc, hcont', hnmem, hE]
    · intro _
      rfl

/-- Oracles whose classifier names a phase outside the registry. -/
def envInvalidPhase : Env :=
  { classify := fun _ => .ok ⟨"unknown_phase", "do something", 4/5⟩,
    extractOracle := fun _ _ _ => .error "no extraction",
    freeTextOracle := fun _ _ => .error "no extraction",
    decodeJson := fun _ => none }

/-- C7, witness: the classifier returns an unregistered phase name and the
Router substitutes the (single) registered phase with confidence 0.5. -/
theorem C7_witness :
    ([pdReport] : List PhaseDef) ≠ [] ∧
    pyTrim (latestHuman stC1.messages) ≠ "" ∧
    envInvalidPhase.classify stC1.messages =
      .ok ⟨"unknown_phase", "do something", 4/5⟩ ∧
    ∃ d' : SupervisorOut,
      (supervisor_node envInvalidPhase cfgD [pdReport] stC1).decision = some d' ∧
      d'.next_phase ∈ phaseNames [pdReport] ∧
      (supervisor_node envInvalidPhase cfgD [pdReport] stC1).goto =
        some d'.next_phase ∧
      (supervisor_node envInvalidPhase cfgD [pdReport] stC1).state.status =
        stC1.status ∧
      ((phaseNames [pdReport]).contains
          (SupervisorOut.next_phase ⟨"unknown_phase", "do something", 4/5⟩) =
            false →
        d' = ⟨firstPhaseName [pdReport], "do something", (1 : Rat) / 2⟩) :=
  ⟨by simp, by decide, rfl,
    C7_router_decision_registered envInvalidPhase cfgD [pdReport] stC1
      ⟨"unknown_phase", "do something", 4/5⟩ (by simp) (by decide) rfl⟩

theorem cleanVal_eq_vstr (v : Value) (s : String) :
    cleanVal v = .vstr s ↔ v = .vstr s ∧ isNoneLike s = false := by
  cases v with
  | vnull => simp [cleanVal]
  | vstr t =>
      by_cases h : isNoneLike t
      · simp only [cleanVal, if_pos h]
        constructor
        · intro hcontr
          cases hcontr
        · rintro ⟨ht, hs⟩
          injection ht with ht
          rw [ht] at h
          rw [h] at hs
          cases hs
      · simp only [cleanVal, if_neg h]
        constructor
        · intro he
          injection he with he
          subst he
          exact ⟨rfl, Bool.eq_false_iff.mpr h⟩
        · rintro ⟨ht, _⟩
          exact ht
  | vnum n => simp [cleanVal]
  | vbool b => simp [cleanVal]

theorem mem_cleanMap_vstr (d : List (String × Value)) (k s : String) :
    (k, Value.vstr s) ∈ cleanMap d ↔
      (k, Value.vstr s) ∈ d ∧ isNoneLike s = false := by
  simp only [cleanMap, List.mem_map]
  constructor
  · rintro ⟨⟨a, b⟩, hab, heq⟩
    have h1 : a = k := congrArg Prod.fst heq
    have h2 : cleanVal b = .vstr s := congrArg Prod.snd heq
    rw [cleanVal_eq_vstr] at h2
    obtain ⟨hb, hnl⟩ := h2
    subst h1
    subst hb
    exact ⟨hab, hnl⟩
  · rintro ⟨hmem, hnl⟩
    refine ⟨(k, .vstr s), hmem, ?_⟩
    simp [cleanVal, hnl]

theorem isNoneLike_consequences (s : String) (h : isNoneLike s = false) :
    s ≠ "" ∧ s ≠ "null" ∧ s ≠ "None" ∧ pyLower s ≠ "none" := by
  simp only [isNoneLike, Bool.or_eq_false_iff, decide_eq_false_iff_not] at h
  obtain ⟨⟨hnone, hnull⟩, hempty⟩ := h
  refine ⟨?_, ?_, ?_, hnone⟩
  · intro he; rw [he] at hempty; exact hempty rfl
  · intro he; rw [he] at hnull; exact hnull rfl
  · intro he; rw [he] at hnone; exact hnone rfl

theorem keepStruct_vstr (s : String) (h : isNoneLike s = false) :
    keepStruct (.vstr s) = true ↔ pyTrim s ≠ "" := by
  obtain ⟨h1, h2, h3, h4⟩ := isNoneLike_consequences s h
  simp only [keepStruct, Bool.and_eq_true, bne_iff_ne, ne_eq, Value.toStr,
    Value.vstr.injEq]
  tauto

theorem keepFB_vstr (s : String) (h : isNoneLike s = false) :
    keepFB (.vstr s) = true ↔ pyTrim s ≠ "" := by
  obtain ⟨h1, _, _, _⟩ := isNoneLike_consequences s h
  simp only [keepFB, Bool.and_eq_true, bne_iff_ne, ne_eq, Value.toStr,
    Value.vstr.injEq]
  tauto

theorem mem_structFilter_vstr (d : List (String × Value)) (k s : String) :
    (k, Value.vstr s) ∈ (cleanMap d).filter (fun kv => keepStruct kv.2) ↔
      (k, Value.vstr s) ∈ d ∧ isNoneLike s = false ∧ pyTrim s ≠ "" := by
  rw [List.mem_filter, mem_cleanMap_vstr]
  constructor
  · rintro ⟨⟨hd, hnl⟩, hk⟩
    exact ⟨hd, hnl, (keepStruct_vstr s hnl).1 hk⟩
  · rintro ⟨hd, hnl, ht⟩
    exact ⟨⟨hd, hnl⟩, (keepStruct_vstr s hnl).2 ht⟩

theorem mem_fbFilter_vstr (d : List (String × Value)) (k s : String) :
    (k, Value.vstr s) ∈ (cleanMap d).filter (fun kv => keepFB kv.2) ↔
      (k, Value.vstr s) ∈ d ∧ isNoneLike s = false ∧ pyTrim s ≠ "" := by
  rw [List.mem_filter, mem_cleanMap_vstr]
  constructor
  · rintro ⟨⟨hd, hnl⟩, hk⟩
    exact ⟨hd, hnl, (keepFB_vstr s hnl).1 hk⟩
  · rintro ⟨hd, hnl, ht⟩
    exact ⟨⟨hd, hnl⟩, (keepFB_vstr s hnl).2 ht⟩

/-- The exact raw free-text output used for the C8 counterexample: a JSON
object whose single key is not a field of the report schema. -/
def rawC8 : String := "\x7b\"extra\": \"v\"\x7d"

/-- Oracles for the fallback run of C8: the free-text capability emits
`rawC8`, and `json.loads` decodes it to the singleton map `extra ↦ "v"`. -/
def envC8 : Env :=
  { classify := fun _ => .error "unused",
    extractOracle := fun _ _ _ => .error "unused",
    freeTextOracle := fun _ _ => .ok rawC8,
    decodeJson := fun s =>
      if s = rawC8 then some [("extra", .vstr "v")] else none }

/-- C8, counterexample: the fallback extractor performs no schema filtering —
a decoded key that is not in the target phase's schema is returned, not
dropped (`valid_params` on lines 132–135 of `engine.py` filters only by
value, never by key). -/
theorem C8_counterexample :
    "extra" ∈ (extract_parameters_with_fallback envC8
      "make a report" "generate_report").map Prod.fst ∧
    "extra" ∉ pdReport.required_params.fields.map FieldInfo.name := by decide

/-- C8, amended: the fallback strategy hands `json.loads` exactly the
substring of its (trimmed, fence-stripped) raw output between the first `{`
and the last `}`, and returns every decoded entry that survives the value
cleaning — keys outside the target schema are kept, so the result's keys are
bounded only by the decoded object's keys, not by the schema. -/
theorem C8_fallback_decodes_slice_without_schema_filter (env : Env)
    (m p raw : String) (d : List (String × Value))
    (h1 : env.freeTextOracle m p = .ok raw)
    (h2 : env.decodeJson (braceSlice (stripFences (pyTrim raw))) = some d) :
    extract_parameters_with_fallback env m p =
      (cleanMap d).filter (fun kv => keepFB kv.2) ∧
    ∀ k, k ∈ (extract_parameters_with_fallback env m p).map Prod.fst →
      k ∈ d.map Prod.fst := by
  have heq : extract_parameters_with_fallback env m p =
      (cleanMap d).filter (fun kv => keepFB kv.2) := by
    simp [extract_parameters_with_fallback, h1, h2]
  refine ⟨heq, ?_⟩
  intro k hk
  rw [heq] at hk
  simp only [List.mem_map, List.mem_filter, cleanMap] at hk ⊢
  obtain ⟨x, ⟨⟨y, hy, hyx⟩, _⟩, hxk⟩ := hk
  exact ⟨y, hy, by rw [← hxk, ← hyx]⟩

/-- C8, witness for the amended theorem at the concrete fallback fixture. -/
theorem C8_amended_witness :
    envC8.freeTextOracle "make a report" "generate_report" = .ok rawC8 ∧
    envC8.decodeJson (braceSlice (stripFences (pyTrim rawC8))) =
      some [("extra", .vstr "v")] ∧
    (extract_parameters_with_fallback envC8 "make a report" "generate_report" =
      (cleanMap [("extra", .vstr "v")]).filter (fun kv => keepFB kv.2) ∧
    ∀ k, k ∈ (extract_parameters_with_fallback envC8
        "make a report" "generate_report").map Prod.fst →
      k ∈ ([("extra", Value.vstr "v")]).map Prod.fst) :=
  ⟨rfl, by decide,
    C8_fallback_decodes_slice_without_schema_filter envC8
      "make a report" "generate_report" rawC8 [("extra", .vstr "v")]
      rfl (by decide)⟩

/-- Oracles whose structured extractor returns the string value `" none "`
(whitespace around a none-word) for the report phase's `user_name` field. -/
def envC9 : Env :=
  { classify := fun _ => .error "unused",
    extractOracle := fun _ _ _ => .ok [("user_name", .vstr " none ")],
    freeTextOracle := fun _ _ => .error "unused",
    decodeJson := fun _ => none }

/-- C9, counterexample: a string value that only after trimming compares
case-insensitively equal to "none" is NOT dropped: the cleaning step
(line 199 of `engine.py`) lowercases without trimming, and the filter
(lines 205–209) trims only for the emptiness check, so `" none "` survives
into the extractor's output. -/
theorem C9_counterexample :
    pyLower (pyTrim " none ") = "none" ∧
    extract_parameters_with_structured_output envC9 3
      "give me a report" "generate_report" =
      .ok [("user_name", Value.vstr " none ")] := by
  constructor
  · decide
  · rfl

/-- C9, amended: for each extraction strategy, a string field value is kept
iff its untrimmed lowercase form is none of "none"/"null"/"" AND it does not
trim to the empty string; equivalently, a value is dropped when it equals
"none"/"null"/"" case-insensitively *without* trimming or is whitespace-only
— a value like `" none "` (none-word with surrounding whitespace) is kept,
which is weaker than the claimed trimmed comparison. -/
theorem C9_value_cleaning_characterisation (env : Env) (retries : Nat)
    (m p raw : String) (d d2 : List (String × Value))
    (h1 : env.extractOracle 0 m p = .ok d)
    (h2 : env.freeTextOracle m p = .ok raw)
    (h3 : env.decodeJson (braceSlice (stripFences (pyTrim raw))) = some d2) :
    extract_parameters_with_structured_output env (retries + 1) m p =
      .ok ((cleanMap d).filter (fun kv => keepStruct kv.2)) ∧
    (∀ k s, (k, Value.vstr s) ∈ (cleanMap d).filter (fun kv => keepStruct kv.2) ↔
      (k, Value.vstr s) ∈ d ∧ isNoneLike s = false ∧ pyTrim s ≠ "") ∧
    (∀ k s, (k, Value.vstr s) ∈ extract_parameters_with_fallback env m p ↔
      (k, Value.vstr s) ∈ d2 ∧ isNoneLike s = false ∧ pyTrim s ≠ "") := by
  refine ⟨?_, ?_, ?_⟩
  · simp [extract_parameters_with_structured_output, extractStructuredLoop, h1]
  · intro k s
    exact mem_structFilter_vstr d k s
  · intro k s
    have heq : extract_parameters_with_fallback env m p =
        (cleanMap d2).filter (fun kv => keepFB kv.2) := by
      simp [extract_parameters_with_fallback, h2, h3]
    rw [heq]
    exact mem_fbFilter_vstr d2 k s

/-- Oracles for the C9 witness: the structured pass returns a mixed map and
the free-text pass decodes another. -/
def envC9w : Env :=
  { classify := fun _ => .error "unused",
    extractOracle := fun _ _ _ =>
      .ok [("user_name", .vstr "NONE"), ("report_type", .vstr " quarterly ")],
    freeTextOracle := fun _ _ => .ok "\x7b\"report_type\": \"null\"\x7d",
    decodeJson := fun s =>
      if s = "\x7b\"report_type\": \"null\"\x7d" then
        some [("report_type", .vstr "null")]
      else none }

/-- C9, witness for the amended theorem at concrete oracles: `"NONE"` is
dropped (untrimmed lowercase comparison), `" quarterly "` is kept. -/
theorem C9_amended_witness :
    envC9w.extractOracle 0 "give me a report" "generate_report" =
      .ok [("user_name", .vstr "NONE"), ("report_type", .vstr " quarterly ")] ∧
    envC9w.freeTextOracle "give me a report" "generate_report" =
      .ok "\x7b\"report_type\": \"null\"\x7d" ∧
    envC9w.decodeJson (braceSlice (stripFences
      (pyTrim "\x7b\"report_type\": \"null\"\x7d"))) =
      some [("report_type", .vstr "null")] ∧
    (extract_parameters_with_structured_output envC9w (2 + 1)
        "give me a report" "generate_report" =
      .ok ((cleanMap [("user_name", Value.vstr "NONE"),
        ("report_type", Value.vstr " quarterly ")]).filter
          (fun kv => keepStruct kv.2)) ∧
    (∀ k s, (k, Value.vstr s) ∈
        (cleanMap [("user_name", Value.vstr "NONE"),
          ("report_type", Value.vstr " quarterly ")]).filter
            (fun kv => keepStruct kv.2) ↔
      (k, Value.vstr s) ∈ [("user_name", Value.vstr "NONE"),
        ("report_type", Value.vstr " quarterly ")] ∧
        isNoneLike s = false ∧ pyTrim s ≠ "") ∧
    (∀ k s, (k, Value.vstr s) ∈ extract_parameters_with_fallback envC9w
        "give me a report" "generate_report" ↔
      (k, Value.vstr s) ∈ [("report_type", Value.vstr "null")] ∧
        isNoneLike s = false ∧ pyTrim s ≠ "")) :=
  ⟨rfl, rfl, by decide,
    C9_value_cleaning_characterisation envC9w 2
      "give me a report" "generate_report"
      "\x7b\"report_type\": \"null\"\x7d"
      [("user_name", .vstr "NONE"), ("report_type", .vstr " quarterly ")]
      [("report_type", .vstr "null")] rfl rfl (by decide)⟩

theorem autoLoop_of_not_awaiting (env : Env) (cfg : WorkflowConfig)
    (phases : List PhaseDef) (fuel : Nat) (st : WState)
    (h : st.awaiting_input = false) :
    autoContinuationLoop env cfg phases fuel st = st := by
  cases fuel with
  | zero => rfl
  | succ n => simp [autoContinuationLoop, h]

theorem latestHuman_single (m : String) : latestHuman [Msg.human m] = m := rfl

/-- C10: after the empty-message fast path, the state returned by
`run_workflow` records the pseudo-decision
`supervisor_out = {next_phase := "error", intent := "critical_error",
confidence := 0.0}` — a phase name outside the registered set — with
`current_phase = None`, `awaiting_input = False`, and `error_message` set to
the formatted error text (lines 417–430 of `engine.py`; no phase node runs
and the auto-continuation loop does not fire since `awaiting_input` is
false). -/
theorem C10_empty_message_recorded_state (env : Env) (cfg : WorkflowConfig)
    (phases : List PhaseDef) (msg : String)
    (h1 : pyTrim msg = "")
    (h2 : "error" ∉ phaseNames phases) :
    (run_workflow env cfg phases msg).supervisor_out =
      some ⟨"error", "critical_error", 0⟩ ∧
    (∀ d : SupervisorOut, (run_workflow env cfg phases msg).supervisor_out =
      some d → d.next_phase ∉ phaseNames phases) ∧
    (run_workflow env cfg phases msg).current_phase = none ∧
    (run_workflow env cfg phases msg).awaiting_input = false ∧
    (run_workflow env cfg phases msg).error_message =
      some ("❌ **Error**: " ++ emptyMessageErrorText) := by
  have hlat : pyTrim (latestHuman (initialState msg).messages) = "" := by
    simp only [initialState, latestHuman_single]
    exact h1
  have hgraph : runGraphOnce env cfg phases (initialState msg) =
      criticalErrorState (initialState msg)
        ((initialState msg).error_count + 2)
        ("❌ **Error**: " ++ emptyMessageErrorText) := by
    simp [runGraphOnce, supervisor_node, hlat]
  have hrun : run_workflow env cfg phases msg =
      criticalErrorState (initialState msg)
        ((initialState msg).error_count + 2)
        ("❌ **Error**: " ++ emptyMessageErrorText) := by
    simp only [run_workflow]
    by_cases he : cfg.enable_auto_continuation = true
    · rw [if_pos he, hgraph, autoLoop_of_not_awaiting _ _ _ _ _ rfl]
    · rw [if_neg he, hgraph]
  rw [hrun]
  refine ⟨rfl, ?_, rfl, rfl, rfl⟩
  intro d hd
  have hde : (⟨"error", "critical_error", 0⟩ : SupervisorOut) = d := by
    injection hd
  rw [← hde]
  exact h2

/-- C10, witness at a concrete empty message and the report-phase registry. -/
theorem C10_witness :
    pyTrim "" = "" ∧
    "error" ∉ phaseNames [pdReport] ∧
    ((run_workflow envAllFail cfgD [pdReport] "").supervisor_out =
      some ⟨"error", "critical_error", 0⟩ ∧
    (∀ d : SupervisorOut,
      (run_workflow envAllFail cfgD [pdReport] "").supervisor_out = some d →
        d.next_phase ∉ phaseNames [pdReport]) ∧
    (run_workflow envAllFail cfgD [pdReport] "").current_phase = none ∧
    (run_workflow envAllFail cfgD [pdReport] "").awaiting_input = false ∧
    (run_workflow envAllFail cfgD [pdReport] "").error_message =
      some ("❌ **Error**: " ++ emptyMessageErrorText)) :=
  ⟨by decide, by decide,
    C10_empty_message_recorded_state envAllFail cfgD [pdReport] ""
      (by decide) (by decide)⟩
